import Mathlib

set_option linter.unusedVariables false

/-!
Verification development for the KoDNLP dataset-preparation pipeline.

The embedding covers `src/data/builder.py` (DatasetBuilder, NERDatasetBuilder,
SLUDatasetBuilder) and `src/data_manager/utils.py` (create_builder,
load_vocab_dir).  Components of the repository that are referenced by this
code but are not under `src/` (the Vocabulary class from `data/vocab.py`,
the constants from `configs/constants.py`, the helper `get_filelines`, and
the WordSegmentationDatasetBuilder) are modelled from the specification, as
is the external `sklearn.model_selection.train_test_split` collaborator,
which the specification treats as a black box with a stated contract.

Python exceptions are modelled with an explicit error type; fallible code
returns `Except`.  A Python file is modelled as the list of its lines, each
given without its terminating newline character.
-/

/-- Model of the Python exceptions that this code can raise.  Each carries
the optional message string it was raised with (`ValueError()` raises with
no message, modelled as `none`). -/
inductive PyError where
  | valueError (m : Option String)
  | notImplementedError (m : Option String)
  | configurationError (m : Option String)
  | attributeError (m : Option String)
  | ioError (m : Option String)
  deriving Repr, DecidableEq

/-- Message carried by a raised exception. -/
def PyError.msg : PyError → Option String
  | PyError.valueError m => m
  | PyError.notImplementedError m => m
  | PyError.configurationError m => m
  | PyError.attributeError m => m
  | PyError.ioError m => m

deriving instance DecidableEq for Except

/-- Model of a Python runtime value, used to compare the values that
different call sites hand to the same Vocabulary method: a raw string is a
different value from a list of token strings. -/
inductive PyObj where
  | str : String → PyObj
  | list : List PyObj → PyObj

/-- Evaluates a Python list comprehension `[f x for x in l]` in the Except
monad: elements are produced left to right and the first raised exception
aborts the whole comprehension. -/
def mapExcept {α β : Type} (f : α → Except PyError β) : List α → Except PyError (List β)
  | [] => Except.ok []
  | a :: as =>
    match f a with
    | Except.error e => Except.error e
    | Except.ok b =>
      match mapExcept f as with
      | Except.error e => Except.error e
      | Except.ok bs => Except.ok (b :: bs)

/-- Modelled from the spec: the fixed default random seed constant
`RANDOM_SEED` from `configs/constants.py` (not under `src/`). -/
def RANDOM_SEED : Nat := 42

/-- Modelled from the spec: persisted input-vocabulary file name from
`configs/constants.py` (not under `src/`). -/
def INPUT_VOCAB_FILENAME : String := "input_vocab.json"

/-- Modelled from the spec: persisted tag/label-vocabulary file name from
`configs/constants.py` (not under `src/`). -/
def TAG_VOCAB_FILENAME : String := "tag_vocab.json"

/-- Modelled from the spec: persisted class/intent-vocabulary file name from
`configs/constants.py` (not under `src/`). -/
def CLASS_VOCAB_FILENAME : String := "class_vocab.json"

/-- Modelled from the spec: default unknown special token of a Vocabulary
(`data/vocab.py` is not under `src/`). -/
def DEFAULT_UNKNOWN_TOKEN : String := "<unk>"

/-- Modelled from the spec: default padding special token of a Vocabulary. -/
def DEFAULT_PADDING_TOKEN : String := "<pad>"

/-- Modelled from the spec: default begin-of-sequence special token of a
Vocabulary. -/
def DEFAULT_BOS_TOKEN : String := "<bos>"

/-- Modelled from the spec: default end-of-sequence special token of a
Vocabulary. -/
def DEFAULT_EOS_TOKEN : String := "<eos>"

/-- Modelled from the spec: the Vocabulary data model (`data/vocab.py` is
not under `src/`): two synchronized token/index mappings (represented by the
token-to-index association list) plus four independently nullable special
tokens, and the pruning parameters `max_size` and `min_freq`. -/
structure Vocabulary where
  unknown_token : Option String
  padding_token : Option String
  bos_token : Option String
  eos_token : Option String
  max_size : Option Nat
  min_freq : Nat
  word_to_idx : List (String × Nat)
  deriving Repr, DecidableEq

/-- Modelled from the spec: the Vocabulary constructor; a freshly created
vocabulary is empty (it is fitted or loaded later). -/
def mkVocabulary (max_size : Option Nat) (min_freq : Nat)
    (unknown padding bos eos : Option String) : Vocabulary :=
  { unknown_token := unknown, padding_token := padding, bos_token := bos,
    eos_token := eos, max_size := max_size, min_freq := min_freq, word_to_idx := [] }

/-- Index lookup of one token in the token-to-index mapping. -/
def Vocabulary.find (v : Vocabulary) (w : String) : Option Nat :=
  (v.word_to_idx.find? (fun p => p.1 == w)).map (fun p => p.2)

/-- Modelled from the spec: index of a single token under `to_indices`; an
unknown token maps to the unknown-token index if one is configured,
otherwise the lookup fails with ConfigurationError. -/
def Vocabulary.tokenIndex (v : Vocabulary) (t : String) : Except PyError Nat :=
  match v.find t with
  | some i => Except.ok i
  | none =>
    match v.unknown_token with
    | some u =>
      match v.find u with
      | some i => Except.ok i
      | none => Except.error (PyError.configurationError (some "unknown token absent from mapping"))
    | none => Except.error (PyError.configurationError (some "no unknown token reserved"))

/-- Modelled from the spec: `Vocabulary.to_indices` maps a token sequence to
an index sequence, element by element. -/
def Vocabulary.to_indices (v : Vocabulary) (tokens : List String) : Except PyError (List Nat) :=
  mapExcept (fun t => v.tokenIndex t) tokens

/-- Adds one observed token to a frequency table kept in first-seen order. -/
def countInto : List (String × Nat) → String → List (String × Nat)
  | [], t => [(t, 1)]
  | (w, c) :: rest, t =>
    if w = t then (w, c + 1) :: rest else (w, c) :: countInto rest t

/-- Inserts one entry into a count-descending list, after all entries of
greater or equal count (keeps insertion order among ties). -/
def sortInsDesc (p : String × Nat) : List (String × Nat) → List (String × Nat)
  | [] => [p]
  | q :: qs => if q.2 < p.2 then p :: q :: qs else q :: sortInsDesc p qs

/-- Stable sort of a frequency table by descending count. -/
def sortByCountDesc (l : List (String × Nat)) : List (String × Nat) :=
  l.foldl (fun acc p => sortInsDesc p acc) []

/-- Modelled from the spec: `Vocabulary.fit` counts token frequencies over a
sequence of token sequences, inserts the configured special tokens first in
a fixed canonical order, then the remaining tokens by descending frequency
with a stable first-seen tie break, dropping tokens below `min_freq` and
truncating at `max_size` (special tokens are exempt from both); the
resulting index assignment is dense and zero based. -/
def Vocabulary.fit (v : Vocabulary) (data : List (List String)) : Vocabulary :=
  let counts := data.foldl (fun acc seq => seq.foldl countInto acc) []
  let specials := [v.unknown_token, v.padding_token, v.bos_token, v.eos_token].filterMap id
  let kept := ((sortByCountDesc counts).filter
      (fun p => decide (v.min_freq ≤ p.2) && !(specials.contains p.1))).map Prod.fst
  let limited :=
    match v.max_size with
    | some m => kept.take m
    | none => kept
  let words := specials ++ limited
  { v with word_to_idx := words.enum.map (fun p => (p.2, p.1)) }

/-- Embeds Python `str.split()` with no arguments: splits on runs of
whitespace and never yields an empty token.  Written by structural recursion
over the character list so that it evaluates inside the kernel. -/
def splitWsAux : List Char → List Char → List String
  | [], acc => if acc.isEmpty then [] else [String.mk acc.reverse]
  | c :: cs, acc =>
    if c.isWhitespace then
      (if acc.isEmpty then splitWsAux cs [] else String.mk acc.reverse :: splitWsAux cs [])
    else splitWsAux cs (c :: acc)

/-- Whitespace tokenization of one raw line, as `s.split()` does in
`DatasetBuilder._splitify` (src/data/builder.py line 42). -/
def pySplit (s : String) : List String := splitWsAux s.data []

/-- Embeds `DatasetBuilder._splitify` (src/data/builder.py lines 41 to 42):
tokenizes each raw line by whitespace. -/
def splitify (data : List String) : List (List String) := data.map pySplit

/-- Embeds `DatasetBuilder._numerize_from_text` (src/data/builder.py lines
36 to 39): splits every line, then maps each token list through
`vocab.to_indices`. -/
def numerize_from_text (data : List String) (vocab : Vocabulary) :
    Except PyError (List (List Nat)) :=
  mapExcept (fun tokens => vocab.to_indices tokens) (splitify data)

/-- Numerization against a possibly absent vocabulary, as the builders store
vocabularies in fields that may be `None`: calling `_numerize_from_text`
with `None` reaches `None.to_indices` and raises AttributeError as soon as
the comprehension performs its first iteration (an empty input list never
iterates, so it succeeds with an empty result). -/
def numerize_opt (data : List String) (vocab : Option Vocabulary) :
    Except PyError (List (List Nat)) :=
  match vocab with
  | some v => numerize_from_text data v
  | none =>
    match data with
    | [] => Except.ok []
    | _ :: _ => Except.error (PyError.attributeError none)

/-- Embeds Python `str.rstrip()` with no arguments: removes every trailing
whitespace character (spaces, tabs, newlines, ...), not only the newline. -/
def pyRstrip (s : String) : String :=
  String.mk ((s.data.reverse.dropWhile Char.isWhitespace).reverse)

/-- Embeds Python `str.replace` applied with the single-character pattern
`"\n"` and an empty replacement: removes every newline character. -/
def removeNewlines (s : String) : String :=
  String.mk (s.data.filter (fun c => !(c = '\n')))

/-- Processing of one line inside `DatasetBuilder._load_text`
(src/data/builder.py line 52): `readline` yields the line with its
terminating newline, then `rstrip()` and `replace` are applied. -/
def loadLine (line : String) : String := removeNewlines (pyRstrip (line ++ "\n"))

/-- Embeds `DatasetBuilder._load_text` (src/data/builder.py lines 44 to 58):
the line count is taken up front by `get_filelines` (modelled from the spec,
`utils.py` is not under `src/`) and exactly that many lines are read and
processed by `loadLine`; the file is modelled as its list of lines. -/
def load_text (file : List String) : List String := file.map loadLine

/-- Modelled from the spec: `sklearn.model_selection.train_test_split` is an
external black box that, given parallel sequences plus a ratio and a seed,
returns reproducible aligned partitions; it is modelled by a deterministic
permutation of the index range computed from the seed and the length. -/
def permutedIndices (seed n : Nat) : List Nat :=
  (List.range n).map (fun i => (i + seed) % n)

/-- Number of held-out examples for a test ratio given as a fraction
`num / den` over `n` examples, rounded up. -/
def testCount (num den n : Nat) : Nat := (n * num + (den - 1)) / den

/-- Indices selected for the training partition. -/
def trainIdxList (seed num den n : Nat) : List Nat :=
  (permutedIndices seed n).drop (testCount num den n)

/-- Indices selected for the validation (held-out) partition. -/
def validIdxList (seed num den n : Nat) : List Nat :=
  (permutedIndices seed n).take (testCount num den n)

/-- Selection of the elements of a stream at a list of line indices. -/
def selectIdx {α : Type} (xs : List α) (idxs : List Nat) : List α :=
  idxs.filterMap (fun i => xs.get? i)

/-- Embeds `NERDatasetBuilder._split_into_valid_and_train`
(src/data/builder.py lines 163 to 168) at its default arguments
(test_size 1/10, random_state RANDOM_SEED): both parallel streams are
partitioned by the same index selection. -/
def ner_split_into_valid_and_train (input label : List String) :
    (List String × List String) × (List String × List String) :=
  ((selectIdx input (trainIdxList RANDOM_SEED 1 10 input.length),
    selectIdx label (trainIdxList RANDOM_SEED 1 10 input.length)),
   (selectIdx input (validIdxList RANDOM_SEED 1 10 input.length),
    selectIdx label (validIdxList RANDOM_SEED 1 10 input.length)))

/-- Embeds `SLUDatasetBuilder._split_into_valid_and_train`
(src/data/builder.py lines 302 to 307) at its default arguments: all three
parallel streams are partitioned by the same index selection. -/
def slu_split_into_valid_and_train (input label cls : List String) :
    (List String × List String × List String) ×
      (List String × List String × List String) :=
  ((selectIdx input (trainIdxList RANDOM_SEED 1 10 input.length),
    selectIdx label (trainIdxList RANDOM_SEED 1 10 input.length),
    selectIdx cls (trainIdxList RANDOM_SEED 1 10 input.length)),
   (selectIdx input (validIdxList RANDOM_SEED 1 10 input.length),
    selectIdx label (validIdxList RANDOM_SEED 1 10 input.length),
    selectIdx cls (validIdxList RANDOM_SEED 1 10 input.length)))

/-- State of an NERDatasetBuilder after construction: eagerly loaded raw
streams and the two optional vocabularies. -/
structure NERBuilder where
  raw_input : List String
  raw_label : List String
  input_vocab : Option Vocabulary
  label_vocab : Option Vocabulary
  deriving Repr, DecidableEq

/-- State of an SLUDatasetBuilder after construction: three raw streams and
three optional vocabularies. -/
structure SLUBuilder where
  raw_input : List String
  raw_label : List String
  raw_class : List String
  input_vocab : Option Vocabulary
  label_vocab : Option Vocabulary
  class_vocab : Option Vocabulary
  deriving Repr, DecidableEq

/-- Embeds `NERDatasetBuilder.__init__` (src/data/builder.py lines 71 to
95): for the text file type the raw streams are loaded through `_load_text`;
any other file type raises NotImplementedError. -/
def ner_init (input_file label_file : List String) (file_type : String)
    (input_vocab label_vocab : Option Vocabulary) : Except PyError NERBuilder :=
  if file_type = "text" then
    Except.ok (NERBuilder.mk (load_text input_file) (load_text label_file)
      input_vocab label_vocab)
  else Except.error (PyError.notImplementedError none)

/-- Embeds `SLUDatasetBuilder.__init__` (src/data/builder.py lines 172 to
201). -/
def slu_init (input_file label_file class_file : List String) (file_type : String)
    (input_vocab label_vocab class_vocab : Option Vocabulary) :
    Except PyError SLUBuilder :=
  if file_type = "text" then
    Except.ok (SLUBuilder.mk (load_text input_file) (load_text label_file)
      (load_text class_file) input_vocab label_vocab class_vocab)
  else Except.error (PyError.notImplementedError none)

/-- Embeds `NERDatasetBuilder.build_vocabulary` (src/data/builder.py lines
97 to 115): the input vocabulary is created with begin and end tokens
disabled, the label vocabulary with only the unknown token disabled; both
are fitted over the whitespace-tokenized raw streams. -/
def ner_build_vocabulary (b : NERBuilder) (max_size : Option Nat) (min_freq : Nat) :
    NERBuilder :=
  { b with
    input_vocab := some ((mkVocabulary max_size min_freq
      (some DEFAULT_UNKNOWN_TOKEN) (some DEFAULT_PADDING_TOKEN) none none).fit
      (splitify b.raw_input)),
    label_vocab := some ((mkVocabulary none 1
      none (some DEFAULT_PADDING_TOKEN) (some DEFAULT_BOS_TOKEN)
      (some DEFAULT_EOS_TOKEN)).fit (splitify b.raw_label)) }

/-- Models Python iteration over a string: it yields the characters of the
string as one-character strings. -/
def pyIterStr (s : String) : List String := s.data.map (fun c => String.mk [c])

/-- Embeds `SLUDatasetBuilder.build_vocabulary` (src/data/builder.py lines
203 to 226): input and label vocabularies as in NER, plus a class vocabulary
with all four special symbols disabled.  Line 216 sets
`class_data = self._raw_class` without `_splitify`, so `fit` receives raw
line strings; iterating a Python string yields its characters, modelled by
`pyIterStr`. -/
def slu_build_vocabulary (b : SLUBuilder) (max_size : Option Nat) (min_freq : Nat) :
    SLUBuilder :=
  { b with
    input_vocab := some ((mkVocabulary max_size min_freq
      (some DEFAULT_UNKNOWN_TOKEN) (some DEFAULT_PADDING_TOKEN) none none).fit
      (splitify b.raw_input)),
    label_vocab := some ((mkVocabulary none 1
      none (some DEFAULT_PADDING_TOKEN) (some DEFAULT_BOS_TOKEN)
      (some DEFAULT_EOS_TOKEN)).fit (splitify b.raw_label)),
    class_vocab := some ((mkVocabulary none 1 none none none none).fit
      (b.raw_class.map pyIterStr)) }

/-- Element handed to `class_vocab.fit` for each class line by
`SLUDatasetBuilder.build_vocabulary` (src/data/builder.py line 216): the raw
line string itself, not a token list. -/
def slu_class_fit_elements (raw_class : List String) : List PyObj :=
  raw_class.map PyObj.str

/-- Element handed to `class_vocab.to_indices` for each class line when the
class stream is numerized through `_numerize_from_text`
(src/data/builder.py lines 37 and 245): the whitespace token list of the
line. -/
def slu_class_numerize_elements (raw_class : List String) : List PyObj :=
  raw_class.map (fun s => PyObj.list ((pySplit s).map PyObj.str))

/-- Persisted NER dataset JSON object (src/data/builder.py lines 131 to
135): fields `inputs` and `entities`. -/
structure NERJson where
  inputs : List (List Nat)
  entities : List (List Nat)
  deriving Repr, DecidableEq

/-- Persisted SLU dataset JSON object (src/data/builder.py lines 243 to
249): fields `inputs`, `slots` and `intents`. -/
structure SLUJson where
  inputs : List (List Nat)
  slots : List (List Nat)
  intents : List (List Nat)
  deriving Repr, DecidableEq

/-- Embeds `NERDatasetBuilder.build_trainable_dataset` (src/data/builder.py
lines 117 to 143): raises a bare ValueError when the input or label
vocabulary is absent; otherwise splits the raw streams, numerizes each
partition against the matching vocabulary in source order and returns the
two JSON objects that are persisted. -/
def ner_build_trainable_dataset (b : NERBuilder) :
    Except PyError (NERJson × NERJson) :=
  if b.input_vocab = none ∨ b.label_vocab = none then
    Except.error (PyError.valueError none)
  else
    match numerize_opt (ner_split_into_valid_and_train b.raw_input b.raw_label).1.1
        b.input_vocab with
    | Except.error e => Except.error e
    | Except.ok ti =>
      match numerize_opt (ner_split_into_valid_and_train b.raw_input b.raw_label).1.2
          b.label_vocab with
      | Except.error e => Except.error e
      | Except.ok te =>
        match numerize_opt (ner_split_into_valid_and_train b.raw_input b.raw_label).2.1
            b.input_vocab with
        | Except.error e => Except.error e
        | Except.ok vi =>
          match numerize_opt (ner_split_into_valid_and_train b.raw_input b.raw_label).2.2
              b.label_vocab with
          | Except.error e => Except.error e
          | Except.ok ve =>
            Except.ok ({ inputs := ti, entities := te }, { inputs := vi, entities := ve })

/-- Embeds `SLUDatasetBuilder.build_trainable_dataset` (src/data/builder.py
lines 228 to 257): the precondition check at line 231 covers only the input
and label vocabularies; the six numerizations then run in source order
(train inputs, slots, intents, then valid inputs, slots, intents), the class
streams against the possibly absent class vocabulary. -/
def slu_build_trainable_dataset (b : SLUBuilder) :
    Except PyError (SLUJson × SLUJson) :=
  if b.input_vocab = none ∨ b.label_vocab = none then
    Except.error (PyError.valueError none)
  else
    match numerize_opt
        (slu_split_into_valid_and_train b.raw_input b.raw_label b.raw_class).1.1
        b.input_vocab with
    | Except.error e => Except.error e
    | Except.ok ti =>
      match numerize_opt
          (slu_split_into_valid_and_train b.raw_input b.raw_label b.raw_class).1.2.1
          b.label_vocab with
      | Except.error e => Except.error e
      | Except.ok ts =>
        match numerize_opt
            (slu_split_into_valid_and_train b.raw_input b.raw_label b.raw_class).1.2.2
            b.class_vocab with
        | Except.error e => Except.error e
        | Except.ok tc =>
          match numerize_opt
              (slu_split_into_valid_and_train b.raw_input b.raw_label b.raw_class).2.1
              b.input_vocab with
          | Except.error e => Except.error e
          | Except.ok vi =>
            match numerize_opt
                (slu_split_into_valid_and_train b.raw_input b.raw_label b.raw_class).2.2.1
                b.label_vocab with
            | Except.error e => Except.error e
            | Except.ok vs =>
              match numerize_opt
                  (slu_split_into_valid_and_train b.raw_input b.raw_label b.raw_class).2.2.2
                  b.class_vocab with
              | Except.error e => Except.error e
              | Except.ok vc =>
                Except.ok ({ inputs := ti, slots := ts, intents := tc },
                  { inputs := vi, slots := vs, intents := vc })

/-- Modelled from the spec: WordSegmentationDatasetBuilder
(`data_manager/builder.py`, not under `src/`) follows the same lifecycle as
NER over a single input stream. -/
structure WSBuilder where
  raw_input : List String
  input_vocab : Option Vocabulary
  deriving Repr, DecidableEq

/-- Modelled from the spec: WordSegmentationDatasetBuilder construction;
only the text file type is implemented. -/
def ws_init (input_file : List String) (file_type : String)
    (input_vocab : Option Vocabulary) : Except PyError WSBuilder :=
  if file_type = "text" then
    Except.ok (WSBuilder.mk (load_text input_file) input_vocab)
  else Except.error (PyError.notImplementedError none)

/-- Modelled from the spec: vocabulary construction for the
word-segmentation builder (input vocabulary shaped as for NER). -/
def ws_build_vocabulary (b : WSBuilder) (max_size : Option Nat) (min_freq : Nat) :
    WSBuilder :=
  { b with
    input_vocab := some ((mkVocabulary max_size min_freq
      (some DEFAULT_UNKNOWN_TOKEN) (some DEFAULT_PADDING_TOKEN) none none).fit
      (splitify b.raw_input)) }

/-- Modelled from the spec: train/valid split of the single
word-segmentation stream. -/
def ws_split_into_valid_and_train (input : List String) :
    List String × List String :=
  (selectIdx input (trainIdxList RANDOM_SEED 1 10 input.length),
   selectIdx input (validIdxList RANDOM_SEED 1 10 input.length))

/-- Modelled from the spec: trainable-dataset construction for the
word-segmentation builder, mirroring the NER shape over one stream. -/
def ws_build_trainable_dataset (b : WSBuilder) :
    Except PyError (List (List Nat) × List (List Nat)) :=
  if b.input_vocab = none then Except.error (PyError.valueError none)
  else
    match numerize_opt (ws_split_into_valid_and_train b.raw_input).1 b.input_vocab with
    | Except.error e => Except.error e
    | Except.ok tr =>
      match numerize_opt (ws_split_into_valid_and_train b.raw_input).2 b.input_vocab with
      | Except.error e => Except.error e
      | Except.ok va => Except.ok (tr, va)

/-- Configuration mapping consumed by `create_builder`
(src/data_manager/utils.py): the raw file contents for each stream key, the
optionally preloaded input vocabulary, and the optional minimum frequency. -/
structure DatasetConfigs where
  input : List String
  label : List String
  slots : List String
  intents : List String
  vocab_path : Option Vocabulary
  vocab_min_freq : Option Nat
  deriving Repr, DecidableEq

/-- Minimum frequency used by `create_builder`: the configured value when
present, otherwise the default 1. -/
def minFreqOf (cfg : DatasetConfigs) : Nat :=
  match cfg.vocab_min_freq with
  | some m => m
  | none => 1

/-- Result of `create_builder`: one of the three task-specific builders. -/
inductive BuiltBuilder where
  | ner : NERBuilder → BuiltBuilder
  | ws : WSBuilder → BuiltBuilder
  | slu : SLUBuilder → BuiltBuilder
  deriving Repr, DecidableEq

/-- Embeds `create_builder` (src/data_manager/utils.py lines 8 to 34):
dispatches on the task type tag, constructs the matching builder, builds its
vocabularies and its trainable dataset, and raises NotImplementedError for
every other tag.  The builders it instantiates live in
`data_manager/builder.py`, which is not under `src/`; per the spec they are
the same components as the builders of `data/builder.py`. -/
def create_builder (ty : String) (cfg : DatasetConfigs) :
    Except PyError BuiltBuilder :=
  if ty = "ner" then
    match ner_init cfg.input cfg.label "text" cfg.vocab_path none with
    | Except.error e => Except.error e
    | Except.ok b =>
      match ner_build_trainable_dataset (ner_build_vocabulary b none (minFreqOf cfg)) with
      | Except.error e => Except.error e
      | Except.ok _ => Except.ok (BuiltBuilder.ner (ner_build_vocabulary b none (minFreqOf cfg)))
  else if ty = "word_segment" then
    match ws_init cfg.input "text" cfg.vocab_path with
    | Except.error e => Except.error e
    | Except.ok b =>
      match ws_build_trainable_dataset (ws_build_vocabulary b none (minFreqOf cfg)) with
      | Except.error e => Except.error e
      | Except.ok _ => Except.ok (BuiltBuilder.ws (ws_build_vocabulary b none (minFreqOf cfg)))
  else if ty = "slu" then
    match slu_init cfg.input cfg.slots cfg.intents "text" cfg.vocab_path none none with
    | Except.error e => Except.error e
    | Except.ok b =>
      match slu_build_trainable_dataset (slu_build_vocabulary b none (minFreqOf cfg)) with
      | Except.error e => Except.error e
      | Except.ok _ => Except.ok (BuiltBuilder.slu (slu_build_vocabulary b none (minFreqOf cfg)))
  else Except.error (PyError.notImplementedError none)

/-- Reading and parsing one persisted vocabulary JSON file
(`Vocabulary.from_json`, modelled from the spec: the JSON round trip is
exact, so a stored file is modelled by the vocabulary it encodes); a missing
or unreadable path fails with IOError. -/
def read_vocab_json (fs : String → Option Vocabulary) (path : String) :
    Except PyError Vocabulary :=
  match fs path with
  | some v => Except.ok v
  | none => Except.error (PyError.ioError none)

/-- Embeds `load_vocab_dir` (src/data_manager/utils.py lines 41 to 74):
loads the vocabulary files expected for the task shape from the dataset
subdirectory of the base directory and returns them keyed by role; any
other task type tag raises a bare ValueError. -/
def load_vocab_dir (ty : String) (fs : String → Option Vocabulary) (dir_path : String) :
    Except PyError (List (String × Vocabulary)) :=
  if ty = "ner" ∨ ty = "word_segment" then
    match read_vocab_json fs (dir_path ++ "/dataset/" ++ INPUT_VOCAB_FILENAME) with
    | Except.error e => Except.error e
    | Except.ok iv =>
      match read_vocab_json fs (dir_path ++ "/dataset/" ++ TAG_VOCAB_FILENAME) with
      | Except.error e => Except.error e
      | Except.ok lv => Except.ok [("input_vocab", iv), ("label_vocab", lv)]
  else if ty = "slu" then
    match read_vocab_json fs (dir_path ++ "/dataset/" ++ INPUT_VOCAB_FILENAME) with
    | Except.error e => Except.error e
    | Except.ok iv =>
      match read_vocab_json fs (dir_path ++ "/dataset/" ++ TAG_VOCAB_FILENAME) with
      | Except.error e => Except.error e
      | Except.ok lv =>
        match read_vocab_json fs (dir_path ++ "/dataset/" ++ CLASS_VOCAB_FILENAME) with
        | Except.error e => Except.error e
        | Except.ok cv =>
          Except.ok [("input_vocab", iv), ("label_vocab", lv), ("class_vocab", cv)]
  else Except.error (PyError.valueError none)

/-- Decides whether a computation raised a ConfigurationError. -/
def isConfigurationError {α : Type} : Except PyError α → Bool
  | Except.error (PyError.configurationError _) => true
  | _ => false

/-! ## General lemmas about the comprehension evaluator -/

theorem mapExcept_ok_length {α β : Type} (f : α → Except PyError β) (l : List α)
    (r : List β) (h : mapExcept f l = Except.ok r) : r.length = l.length := by
  induction l generalizing r with
  | nil =>
    simp [mapExcept] at h
    simp [← h]
  | cons a as ih =>
    simp only [mapExcept] at h
    cases hf : f a with
    | error e => rw [hf] at h; simp at h
    | ok b =>
      rw [hf] at h
      cases hm : mapExcept f as with
      | error e => rw [hm] at h; simp at h
      | ok bs =>
        rw [hm] at h
        simp at h
        subst h
        simp [ih bs hm]

theorem mapExcept_ok_get {α β : Type} (f : α → Except PyError β) (l : List α)
    (r : List β) (h : mapExcept f l = Except.ok r) :
    ∀ i (hi : i < l.length) (hr : i < r.length),
      f (l.get ⟨i, hi⟩) = Except.ok (r.get ⟨i, hr⟩) := by
  induction l generalizing r with
  | nil => intro i hi hr; simp at hi
  | cons a as ih =>
    intro i hi hr
    simp only [mapExcept] at h
    cases hf : f a with
    | error e => rw [hf] at h; simp at h
    | ok b =>
      rw [hf] at h
      cases hm : mapExcept f as with
      | error e => rw [hm] at h; simp at h
      | ok bs =>
        rw [hm] at h
        simp at h
        subst h
        cases i with
        | zero => simpa using hf
        | succ j =>
          have hj : j < as.length := by simpa using hi
          have hjr : j < bs.length := by
            have := mapExcept_ok_length f as bs hm
            omega
          simpa using ih bs hm j hj hjr

theorem mapExcept_map {α β γ : Type} (g : α → β) (f : β → Except PyError γ)
    (l : List α) : mapExcept f (l.map g) = mapExcept (fun a => f (g a)) l := by
  induction l with
  | nil => rfl
  | cons a as ih => simp only [List.map, mapExcept, ih]

theorem mapExcept_error_mem {α β : Type} (f : α → Except PyError β) (l : List α)
    (e : PyError) (h : mapExcept f l = Except.error e) :
    ∃ a ∈ l, f a = Except.error e := by
  induction l with
  | nil => simp [mapExcept] at h
  | cons a as ih =>
    simp only [mapExcept] at h
    cases hf : f a with
    | error e2 =>
      rw [hf] at h
      simp at h
      exact ⟨a, by simp, by rw [hf, h]⟩
    | ok b =>
      rw [hf] at h
      cases hm : mapExcept f as with
      | error e2 =>
        rw [hm] at h
        simp at h
        obtain ⟨x, hx, hfx⟩ := ih (h ▸ hm)
        exact ⟨x, by simp [hx], hfx⟩
      | ok bs => rw [hm] at h; simp at h

/-! ## Claim C1 -/

/-- Witness vocabulary used by concrete instantiations: unknown and padding
configured, words a and b known. -/
def v0 : Vocabulary :=
  { unknown_token := some "<unk>", padding_token := some "<pad>",
    bos_token := none, eos_token := none, max_size := none, min_freq := 1,
    word_to_idx := [("<unk>", 0), ("<pad>", 1), ("a", 2), ("b", 3)] }

/-- C1: `_numerize_from_text(lines, vocab)` equals mapping each line through
whitespace splitting (`_splitify`) and then `vocab.to_indices`; on success
it produces exactly one index sequence per input line in the same order, and
an empty line yields the empty index sequence without raising an error. -/
theorem numerize_from_text_composes (lines : List String) (vocab : Vocabulary) :
    numerize_from_text lines vocab =
      mapExcept (fun s => vocab.to_indices (pySplit s)) lines ∧
    vocab.to_indices (pySplit "") = Except.ok [] ∧
    ∀ r, numerize_from_text lines vocab = Except.ok r →
      r.length = lines.length ∧
      ∀ i (hi : i < lines.length) (hr : i < r.length),
        vocab.to_indices (pySplit (lines.get ⟨i, hi⟩)) = Except.ok (r.get ⟨i, hr⟩) ∧
        (lines.get ⟨i, hi⟩ = "" → r.get ⟨i, hr⟩ = []) := by
  have hcomp : numerize_from_text lines vocab =
      mapExcept (fun s => vocab.to_indices (pySplit s)) lines := by
    unfold numerize_from_text splitify
    exact mapExcept_map pySplit (fun tokens => vocab.to_indices tokens) lines
  refine ⟨hcomp, rfl, ?_⟩
  intro r hr
  rw [hcomp] at hr
  refine ⟨mapExcept_ok_length _ _ _ hr, ?_⟩
  intro i hi hir
  have hg := mapExcept_ok_get _ _ _ hr i hi hir
  refine ⟨hg, ?_⟩
  intro hempty
  rw [hempty] at hg
  have : Except.ok ([] : List Nat) = Except.ok (r.get ⟨i, hir⟩) := hg
  simpa using this.symm

/-- Concrete instantiation of C1 at the lines `["a b", ""]` and the witness
vocabulary: two index sequences come back in order and the empty line gives
the empty sequence. -/
theorem numerize_from_text_composes_witness :
    ([[2, 3], []] : List (List Nat)).length = (["a b", ""] : List String).length ∧
    v0.to_indices (pySplit (List.get ["a b", ""] ⟨1, by decide⟩)) =
      Except.ok (List.get ([[2, 3], []] : List (List Nat)) ⟨1, by decide⟩) ∧
    List.get ([[2, 3], []] : List (List Nat)) ⟨1, by decide⟩ = [] := by
  have h := (numerize_from_text_composes ["a b", ""] v0).2.2 [[2, 3], []] (by decide)
  have h1 := h.2 1 (by decide) (by decide)
  exact ⟨h.1, h1.1, h1.2 (by decide)⟩

/-! ## Claim C2 -/

/-- C2: with the fixed default seed and ratio, the train/valid split is a
deterministic function of the stream length alone: one pair of index lists,
computed from the seed, the ratio and the length, is selected from every
parallel stream by both the NER and the SLU split, so line i of each
partition refers to the same example across all streams, and any repeated
call on streams of the same length reuses exactly the same indices. -/
theorem split_reproducible_and_aligned (input label cls : List String)
    (hl : label.length = input.length) (hc : cls.length = input.length) :
    ∃ tIdx vIdx : List Nat,
      tIdx = trainIdxList RANDOM_SEED 1 10 input.length ∧
      vIdx = validIdxList RANDOM_SEED 1 10 input.length ∧
      ner_split_into_valid_and_train input label =
        ((selectIdx input tIdx, selectIdx label tIdx),
         (selectIdx input vIdx, selectIdx label vIdx)) ∧
      slu_split_into_valid_and_train input label cls =
        ((selectIdx input tIdx, selectIdx label tIdx, selectIdx cls tIdx),
         (selectIdx input vIdx, selectIdx label vIdx, selectIdx cls vIdx)) ∧
      ∀ input2 label2 : List String, input2.length = input.length →
        ner_split_into_valid_and_train input2 label2 =
          ((selectIdx input2 tIdx, selectIdx label2 tIdx),
           (selectIdx input2 vIdx, selectIdx label2 vIdx)) := by
  refine ⟨_, _, rfl, rfl, rfl, rfl, ?_⟩
  intro input2 label2 h2
  simp [ner_split_into_valid_and_train, h2]

/-- Concrete instantiation of C2 at two-line parallel streams. -/
theorem split_reproducible_and_aligned_witness :
    ∃ tIdx vIdx : List Nat,
      tIdx = trainIdxList RANDOM_SEED 1 10 (["a", "b"] : List String).length ∧
      vIdx = validIdxList RANDOM_SEED 1 10 (["a", "b"] : List String).length ∧
      ner_split_into_valid_and_train ["a", "b"] ["O", "B"] =
        ((selectIdx ["a", "b"] tIdx, selectIdx ["O", "B"] tIdx),
         (selectIdx ["a", "b"] vIdx, selectIdx ["O", "B"] vIdx)) ∧
      slu_split_into_valid_and_train ["a", "b"] ["O", "B"] ["x", "y"] =
        ((selectIdx ["a", "b"] tIdx, selectIdx ["O", "B"] tIdx, selectIdx ["x", "y"] tIdx),
         (selectIdx ["a", "b"] vIdx, selectIdx ["O", "B"] vIdx, selectIdx ["x", "y"] vIdx)) ∧
      ∀ input2 label2 : List String, input2.length = (["a", "b"] : List String).length →
        ner_split_into_valid_and_train input2 label2 =
          ((selectIdx input2 tIdx, selectIdx label2 tIdx),
           (selectIdx input2 vIdx, selectIdx label2 vIdx)) :=
  split_reproducible_and_aligned ["a", "b"] ["O", "B"] ["x", "y"] (by decide) (by decide)

/-! ## Claim C3 -/

/-- C3: the values the class vocabulary is fitted over are not the values
later numerized against it: `build_vocabulary` hands `fit` each raw class
line as a string, while the numerization path hands `to_indices` the
whitespace token list of that line; for every non-empty class line the two
values differ. -/
theorem slu_class_fit_numerize_mismatch (raw_class : List String) :
    (slu_class_fit_elements raw_class).length = raw_class.length ∧
    (slu_class_numerize_elements raw_class).length = raw_class.length ∧
    ∀ i (hi : i < raw_class.length)
      (h1 : i < (slu_class_fit_elements raw_class).length)
      (h2 : i < (slu_class_numerize_elements raw_class).length),
      raw_class.get ⟨i, hi⟩ ≠ "" →
      (slu_class_fit_elements raw_class).get ⟨i, h1⟩ ≠
        (slu_class_numerize_elements raw_class).get ⟨i, h2⟩ := by
  refine ⟨by simp [slu_class_fit_elements], by simp [slu_class_numerize_elements], ?_⟩
  intro i hi h1 h2 hne
  simp only [slu_class_fit_elements, slu_class_numerize_elements,
    List.get_eq_getElem, List.getElem_map]
  exact fun hcontra => PyObj.noConfusion hcontra

/-- Concrete instantiation of C3 at the class stream `["x"]`. -/
theorem slu_class_fit_numerize_mismatch_witness :
    (slu_class_fit_elements ["x"]).get ⟨0, by decide⟩ ≠
      (slu_class_numerize_elements ["x"]).get ⟨0, by decide⟩ :=
  (slu_class_fit_numerize_mismatch ["x"]).2.2 0 (by decide) (by decide) (by decide)
    (by decide)

/-! ## Claim C6 -/

/-- C6: `build_vocabulary` configures the special tokens per role: the
NER/SLU input vocabulary disables begin and end of sequence and keeps
unknown and padding; the NER/SLU label vocabulary disables only the unknown
token; the SLU class vocabulary disables all four special symbols. -/
theorem build_vocabulary_special_token_config (bn : NERBuilder) (bs : SLUBuilder)
    (ms : Option Nat) (mf : Nat) :
    ∃ niv nlv siv slv scv : Vocabulary,
      (ner_build_vocabulary bn ms mf).input_vocab = some niv ∧
      (ner_build_vocabulary bn ms mf).label_vocab = some nlv ∧
      (slu_build_vocabulary bs ms mf).input_vocab = some siv ∧
      (slu_build_vocabulary bs ms mf).label_vocab = some slv ∧
      (slu_build_vocabulary bs ms mf).class_vocab = some scv ∧
      niv.bos_token = none ∧ niv.eos_token = none ∧
      niv.unknown_token = some DEFAULT_UNKNOWN_TOKEN ∧
      niv.padding_token = some DEFAULT_PADDING_TOKEN ∧
      nlv.unknown_token = none ∧ nlv.padding_token = some DEFAULT_PADDING_TOKEN ∧
      nlv.bos_token = some DEFAULT_BOS_TOKEN ∧ nlv.eos_token = some DEFAULT_EOS_TOKEN ∧
      siv.bos_token = none ∧ siv.eos_token = none ∧
      siv.unknown_token = some DEFAULT_UNKNOWN_TOKEN ∧
      siv.padding_token = some DEFAULT_PADDING_TOKEN ∧
      slv.unknown_token = none ∧ slv.padding_token = some DEFAULT_PADDING_TOKEN ∧
      slv.bos_token = some DEFAULT_BOS_TOKEN ∧ slv.eos_token = some DEFAULT_EOS_TOKEN ∧
      scv.unknown_token = none ∧ scv.padding_token = none ∧
      scv.bos_token = none ∧ scv.eos_token = none :=
  ⟨_, _, _, _, _, rfl, rfl, rfl, rfl, rfl, rfl, rfl, rfl, rfl, rfl, rfl, rfl, rfl,
    rfl, rfl, rfl, rfl, rfl, rfl, rfl, rfl, rfl, rfl, rfl, rfl⟩

/-! ## Lemmas about the error behaviour of numerization -/

theorem tokenIndex_not_valueError (v : Vocabulary) (t : String) (m : Option String) :
    v.tokenIndex t ≠ Except.error (PyError.valueError m) := by
  unfold Vocabulary.tokenIndex
  split
  · simp
  · split
    · split
      · simp
      · simp
    · simp

theorem numerize_opt_not_valueError (data : List String) (vocab : Option Vocabulary)
    (m : Option String) :
    numerize_opt data vocab ≠ Except.error (PyError.valueError m) := by
  unfold numerize_opt
  cases vocab with
  | none => cases data <;> simp
  | some v =>
    intro h
    unfold numerize_from_text at h
    obtain ⟨tokens, htmem, htok⟩ := mapExcept_error_mem _ _ _ h
    unfold Vocabulary.to_indices at htok
    obtain ⟨t, _, hti⟩ := mapExcept_error_mem _ _ _ htok
    exact tokenIndex_not_valueError v t m hti

theorem ner_build_not_valueError (b : NERBuilder)
    (hi : b.input_vocab ≠ none) (hl : b.label_vocab ≠ none) (m : Option String) :
    ner_build_trainable_dataset b ≠ Except.error (PyError.valueError m) := by
  have hcond : ¬(b.input_vocab = none ∨ b.label_vocab = none) := by
    push_neg
    exact ⟨hi, hl⟩
  unfold ner_build_trainable_dataset
  rw [if_neg hcond]
  cases h1 : numerize_opt (ner_split_into_valid_and_train b.raw_input b.raw_label).1.1
      b.input_vocab with
  | error e =>
    intro hc
    injection hc with he
    exact numerize_opt_not_valueError _ _ m (he ▸ h1)
  | ok ti =>
    cases h2 : numerize_opt (ner_split_into_valid_and_train b.raw_input b.raw_label).1.2
        b.label_vocab with
    | error e =>
      intro hc
      injection hc with he
      exact numerize_opt_not_valueError _ _ m (he ▸ h2)
    | ok te =>
      cases h3 : numerize_opt (ner_split_into_valid_and_train b.raw_input b.raw_label).2.1
          b.input_vocab with
      | error e =>
        intro hc
        injection hc with he
        exact numerize_opt_not_valueError _ _ m (he ▸ h3)
      | ok vi =>
        cases h4 : numerize_opt (ner_split_into_valid_and_train b.raw_input b.raw_label).2.2
            b.label_vocab with
        | error e =>
          intro hc
          injection hc with he
          exact numerize_opt_not_valueError _ _ m (he ▸ h4)
        | ok ve => exact fun hc => Except.noConfusion hc

theorem slu_build_not_valueError (b : SLUBuilder)
    (hi : b.input_vocab ≠ none) (hl : b.label_vocab ≠ none) (m : Option String) :
    slu_build_trainable_dataset b ≠ Except.error (PyError.valueError m) := by
  have hcond : ¬(b.input_vocab = none ∨ b.label_vocab = none) := by
    push_neg
    exact ⟨hi, hl⟩
  unfold slu_build_trainable_dataset
  rw [if_neg hcond]
  cases h1 : numerize_opt
      (slu_split_into_valid_and_train b.raw_input b.raw_label b.raw_class).1.1
      b.input_vocab with
  | error e =>
    intro hc
    injection hc with he
    exact numerize_opt_not_valueError _ _ m (he ▸ h1)
  | ok ti =>
    cases h2 : numerize_opt
        (slu_split_into_valid_and_train b.raw_input b.raw_label b.raw_class).1.2.1
        b.label_vocab with
    | error e =>
      intro hc
      injection hc with he
      exact numerize_opt_not_valueError _ _ m (he ▸ h2)
    | ok ts =>
      cases h3 : numerize_opt
          (slu_split_into_valid_and_train b.raw_input b.raw_label b.raw_class).1.2.2
          b.class_vocab with
      | error e =>
        intro hc
        injection hc with he
        exact numerize_opt_not_valueError _ _ m (he ▸ h3)
      | ok tc =>
        cases h4 : numerize_opt
            (slu_split_into_valid_and_train b.raw_input b.raw_label b.raw_class).2.1
            b.input_vocab with
        | error e =>
          intro hc
          injection hc with he
          exact numerize_opt_not_valueError _ _ m (he ▸ h4)
        | ok vi =>
          cases h5 : numerize_opt
              (slu_split_into_valid_and_train b.raw_input b.raw_label b.raw_class).2.2.1
              b.label_vocab with
          | error e =>
            intro hc
            injection hc with he
            exact numerize_opt_not_valueError _ _ m (he ▸ h5)
          | ok vs =>
            cases h6 : numerize_opt
                (slu_split_into_valid_and_train b.raw_input b.raw_label b.raw_class).2.2.2
                b.class_vocab with
            | error e =>
              intro hc
              injection hc with he
              exact numerize_opt_not_valueError _ _ m (he ▸ h6)
            | ok vc => exact fun hc => Except.noConfusion hc

/-! ## Claim C4 -/

/-- C4: `build_trainable_dataset` raises ValueError exactly from its
vocabulary precondition check (for NER and SLU: the input or label
vocabulary being absent), and with those vocabularies present it proceeds
through the split and the numerizations in source order and returns the two
JSON objects it persists. -/
theorem build_trainable_dataset_requires_vocab (bn : NERBuilder) (bs : SLUBuilder) :
    ((bn.input_vocab = none ∨ bn.label_vocab = none) →
      ner_build_trainable_dataset bn = Except.error (PyError.valueError none)) ∧
    (bn.input_vocab ≠ none → bn.label_vocab ≠ none →
      (∀ m, ner_build_trainable_dataset bn ≠ Except.error (PyError.valueError m)) ∧
      (∀ ti te vi ve : List (List Nat),
        numerize_opt (ner_split_into_valid_and_train bn.raw_input bn.raw_label).1.1
          bn.input_vocab = Except.ok ti →
        numerize_opt (ner_split_into_valid_and_train bn.raw_input bn.raw_label).1.2
          bn.label_vocab = Except.ok te →
        numerize_opt (ner_split_into_valid_and_train bn.raw_input bn.raw_label).2.1
          bn.input_vocab = Except.ok vi →
        numerize_opt (ner_split_into_valid_and_train bn.raw_input bn.raw_label).2.2
          bn.label_vocab = Except.ok ve →
        ner_build_trainable_dataset bn =
          Except.ok ({ inputs := ti, entities := te }, { inputs := vi, entities := ve }))) ∧
    ((bs.input_vocab = none ∨ bs.label_vocab = none) →
      slu_build_trainable_dataset bs = Except.error (PyError.valueError none)) ∧
    (bs.input_vocab ≠ none → bs.label_vocab ≠ none →
      (∀ m, slu_build_trainable_dataset bs ≠ Except.error (PyError.valueError m)) ∧
      (∀ ti ts tc vi vs vc : List (List Nat),
        numerize_opt (slu_split_into_valid_and_train bs.raw_input bs.raw_label bs.raw_class).1.1
          bs.input_vocab = Except.ok ti →
        numerize_opt (slu_split_into_valid_and_train bs.raw_input bs.raw_label bs.raw_class).1.2.1
          bs.label_vocab = Except.ok ts →
        numerize_opt (slu_split_into_valid_and_train bs.raw_input bs.raw_label bs.raw_class).1.2.2
          bs.class_vocab = Except.ok tc →
        numerize_opt (slu_split_into_valid_and_train bs.raw_input bs.raw_label bs.raw_class).2.1
          bs.input_vocab = Except.ok vi →
        numerize_opt (slu_split_into_valid_and_train bs.raw_input bs.raw_label bs.raw_class).2.2.1
          bs.label_vocab = Except.ok vs →
        numerize_opt (slu_split_into_valid_and_train bs.raw_input bs.raw_label bs.raw_class).2.2.2
          bs.class_vocab = Except.ok vc →
        slu_build_trainable_dataset bs =
          Except.ok ({ inputs := ti, slots := ts, intents := tc },
            { inputs := vi, slots := vs, intents := vc }))) := by
  refine ⟨?_, ?_, ?_, ?_⟩
  · intro h
    unfold ner_build_trainable_dataset
    rw [if_pos h]
  · intro hi hl
    refine ⟨fun m => ner_build_not_valueError bn hi hl m, ?_⟩
    intro ti te vi ve h1 h2 h3 h4
    have hcond : ¬(bn.input_vocab = none ∨ bn.label_vocab = none) := by
      push_neg
      exact ⟨hi, hl⟩
    unfold ner_build_trainable_dataset
    rw [if_neg hcond]
    simp only [h1, h2, h3, h4]
  · intro h
    unfold slu_build_trainable_dataset
    rw [if_pos h]
  · intro hi hl
    refine ⟨fun m => slu_build_not_valueError bs hi hl m, ?_⟩
    intro ti ts tc vi vs vc h1 h2 h3 h4 h5 h6
    have hcond : ¬(bs.input_vocab = none ∨ bs.label_vocab = none) := by
      push_neg
      exact ⟨hi, hl⟩
    unfold slu_build_trainable_dataset
    rw [if_neg hcond]
    simp only [h1, h2, h3, h4, h5, h6]

/-- Witness label vocabulary: unknown disabled, label O known. -/
def vLab : Vocabulary :=
  { unknown_token := none, padding_token := some "<pad>",
    bos_token := some "<bos>", eos_token := some "<eos>", max_size := none,
    min_freq := 1, word_to_idx := [("<pad>", 0), ("<bos>", 1), ("<eos>", 2), ("O", 3)] }

/-- Witness class vocabulary: all special symbols disabled, intent x known. -/
def vCls : Vocabulary :=
  { unknown_token := none, padding_token := none, bos_token := none,
    eos_token := none, max_size := none, min_freq := 1, word_to_idx := [("x", 0)] }

/-- Witness NER builder with both vocabularies present. -/
def bn0 : NERBuilder :=
  { raw_input := ["a"], raw_label := ["O"], input_vocab := some v0,
    label_vocab := some vLab }

/-- Witness NER builder with both vocabularies absent. -/
def bnNone : NERBuilder :=
  { raw_input := ["a"], raw_label := ["O"], input_vocab := none, label_vocab := none }

/-- Witness SLU builder with all three vocabularies present. -/
def bs0 : SLUBuilder :=
  { raw_input := ["a"], raw_label := ["O"], raw_class := ["x"],
    input_vocab := some v0, label_vocab := some vLab, class_vocab := some vCls }

/-- Witness SLU builder whose class vocabulary alone is absent. -/
def bsNoClass : SLUBuilder :=
  { raw_input := ["a"], raw_label := ["O"], raw_class := ["x"],
    input_vocab := some v0, label_vocab := some vLab, class_vocab := none }

/-- Concrete instantiation of C4: a builder without vocabularies raises the
bare ValueError, and builders with vocabularies produce the split and
numerized dataset pair. -/
theorem build_trainable_dataset_requires_vocab_witness :
    ner_build_trainable_dataset bnNone = Except.error (PyError.valueError none) ∧
    ner_build_trainable_dataset bn0 =
      Except.ok ({ inputs := [], entities := [] }, { inputs := [[2]], entities := [[3]] }) ∧
    slu_build_trainable_dataset bs0 =
      Except.ok ({ inputs := [], slots := [], intents := [] },
        { inputs := [[2]], slots := [[3]], intents := [[0]] }) := by
  refine ⟨(build_trainable_dataset_requires_vocab bnNone bs0).1 (Or.inl rfl), ?_, ?_⟩
  · exact ((build_trainable_dataset_requires_vocab bn0 bs0).2.1 (by decide) (by decide)).2
      [] [] [[2]] [[3]] (by decide) (by decide) (by decide) (by decide)
  · exact ((build_trainable_dataset_requires_vocab bn0 bs0).2.2.2 (by decide) (by decide)).2
      [] [] [] [[2]] [[3]] [[0]]
      (by decide) (by decide) (by decide) (by decide) (by decide) (by decide)

/-! ## Lemmas about partition sizes, for claim C5 -/

theorem permutedIndices_mem_lt (seed n : Nat) (hn : 0 < n) :
    ∀ i ∈ permutedIndices seed n, i < n := by
  intro i hi
  simp only [permutedIndices, List.mem_map, List.mem_range] at hi
  obtain ⟨j, hj, rfl⟩ := hi
  exact Nat.mod_lt _ hn

theorem selectIdx_length {α : Type} (xs : List α) (idxs : List Nat)
    (h : ∀ i ∈ idxs, i < xs.length) : (selectIdx xs idxs).length = idxs.length := by
  induction idxs with
  | nil => rfl
  | cons i is ih =>
    have hi : i < xs.length := h i (List.mem_cons_self i is)
    have hrest : ∀ j ∈ is, j < xs.length := fun j hj => h j (List.mem_cons_of_mem i hj)
    simp only [selectIdx, List.filterMap_cons, List.get?_eq_get hi]
    simpa [selectIdx] using ih hrest

theorem split_class_parts_total (cls : List String) (n : Nat)
    (hlen : cls.length = n) (hn : 0 < n) :
    (selectIdx cls (trainIdxList RANDOM_SEED 1 10 n)).length +
      (selectIdx cls (validIdxList RANDOM_SEED 1 10 n)).length = n := by
  have hmem := permutedIndices_mem_lt RANDOM_SEED n hn
  have h1 : ∀ i ∈ trainIdxList RANDOM_SEED 1 10 n, i < cls.length := by
    intro i hi
    rw [hlen]
    exact hmem i (List.mem_of_mem_drop hi)
  have h2 : ∀ i ∈ validIdxList RANDOM_SEED 1 10 n, i < cls.length := by
    intro i hi
    rw [hlen]
    exact hmem i (List.mem_of_mem_take hi)
  rw [selectIdx_length _ _ h1, selectIdx_length _ _ h2]
  have hlp : (permutedIndices RANDOM_SEED n).length = n := by
    simp [permutedIndices]
  unfold trainIdxList validIdxList
  simp only [List.length_drop, List.length_take, hlp]
  omega

/-! ## Claim C5 -/

/-- C5: the precondition check of `SLUDatasetBuilder.build_trainable_dataset`
covers only the input and label vocabularies: with those present and the
class vocabulary absent, no ValueError is raised, and the run instead dies
with AttributeError at the point where a class stream is numerized against
the absent class vocabulary (given that the earlier input and slot
numerizations succeed and the class stream is non-empty). -/
theorem slu_missing_class_vocab_checked_late (bs : SLUBuilder)
    (hi : bs.input_vocab ≠ none) (hl : bs.label_vocab ≠ none)
    (hc : bs.class_vocab = none)
    (hlen : bs.raw_class.length = bs.raw_input.length)
    (hpos : 0 < bs.raw_input.length)
    (ti ts vi vs : List (List Nat))
    (h1 : numerize_opt (slu_split_into_valid_and_train bs.raw_input bs.raw_label bs.raw_class).1.1
      bs.input_vocab = Except.ok ti)
    (h2 : numerize_opt (slu_split_into_valid_and_train bs.raw_input bs.raw_label bs.raw_class).1.2.1
      bs.label_vocab = Except.ok ts)
    (h3 : numerize_opt (slu_split_into_valid_and_train bs.raw_input bs.raw_label bs.raw_class).2.1
      bs.input_vocab = Except.ok vi)
    (h4 : numerize_opt (slu_split_into_valid_and_train bs.raw_input bs.raw_label bs.raw_class).2.2.1
      bs.label_vocab = Except.ok vs) :
    slu_build_trainable_dataset bs = Except.error (PyError.attributeError none) ∧
    slu_build_trainable_dataset bs ≠ Except.error (PyError.valueError none) := by
  have hcond : ¬(bs.input_vocab = none ∨ bs.label_vocab = none) := by
    push_neg
    exact ⟨hi, hl⟩
  have htotal := split_class_parts_total bs.raw_class bs.raw_input.length hlen hpos
  have hprojT : (slu_split_into_valid_and_train bs.raw_input bs.raw_label bs.raw_class).1.2.2 =
      selectIdx bs.raw_class (trainIdxList RANDOM_SEED 1 10 bs.raw_input.length) := rfl
  have hprojV : (slu_split_into_valid_and_train bs.raw_input bs.raw_label bs.raw_class).2.2.2 =
      selectIdx bs.raw_class (validIdxList RANDOM_SEED 1 10 bs.raw_input.length) := rfl
  have hmain : slu_build_trainable_dataset bs = Except.error (PyError.attributeError none) := by
    unfold slu_build_trainable_dataset
    rw [if_neg hcond]
    simp only [h1, h2]
    cases hX : selectIdx bs.raw_class (trainIdxList RANDOM_SEED 1 10 bs.raw_input.length) with
    | cons a as =>
      simp only [hc, hprojT, hX]
      rfl
    | nil =>
      simp only [hc, hprojT, hX]
      have hnil : numerize_opt ([] : List String) none = Except.ok [] := rfl
      simp only [hnil, h3, h4, hprojV]
      cases hV : selectIdx bs.raw_class (validIdxList RANDOM_SEED 1 10 bs.raw_input.length) with
      | nil =>
        exfalso
        rw [hX, hV] at htotal
        simp at htotal
        omega
      | cons b bs2 => rfl
  exact ⟨hmain, by rw [hmain]; simp⟩

/-- Concrete instantiation of C5 at an SLU builder whose class vocabulary
alone is missing. -/
theorem slu_missing_class_vocab_checked_late_witness :
    slu_build_trainable_dataset bsNoClass = Except.error (PyError.attributeError none) ∧
    slu_build_trainable_dataset bsNoClass ≠ Except.error (PyError.valueError none) :=
  slu_missing_class_vocab_checked_late bsNoClass (by decide) (by decide) rfl rfl
    (by decide) [] [] [[2]] [[3]]
    (by decide) (by decide) (by decide) (by decide)

/-! ## Claim C7 -/

/-- C7: `load_vocab_dir` returns vocabularies keyed by role according to the
task shape: for ner and word_segment exactly input_vocab and label_vocab,
for slu exactly input_vocab, label_vocab and class_vocab, each reconstructed
from the corresponding persisted JSON file; every other task type tag raises
ValueError. -/
theorem load_vocab_dir_shape (ty : String) (fs : String → Option Vocabulary)
    (dir_path : String) :
    ((ty = "ner" ∨ ty = "word_segment") →
      ∀ iv lv : Vocabulary,
        fs (dir_path ++ "/dataset/" ++ INPUT_VOCAB_FILENAME) = some iv →
        fs (dir_path ++ "/dataset/" ++ TAG_VOCAB_FILENAME) = some lv →
        load_vocab_dir ty fs dir_path =
          Except.ok [("input_vocab", iv), ("label_vocab", lv)]) ∧
    (ty = "slu" →
      ∀ iv lv cv : Vocabulary,
        fs (dir_path ++ "/dataset/" ++ INPUT_VOCAB_FILENAME) = some iv →
        fs (dir_path ++ "/dataset/" ++ TAG_VOCAB_FILENAME) = some lv →
        fs (dir_path ++ "/dataset/" ++ CLASS_VOCAB_FILENAME) = some cv →
        load_vocab_dir ty fs dir_path =
          Except.ok [("input_vocab", iv), ("label_vocab", lv), ("class_vocab", cv)]) ∧
    (ty ≠ "ner" → ty ≠ "word_segment" → ty ≠ "slu" →
      load_vocab_dir ty fs dir_path = Except.error (PyError.valueError none)) := by
  refine ⟨?_, ?_, ?_⟩
  · intro hty iv lv hiv hlv
    unfold load_vocab_dir
    rw [if_pos hty]
    unfold read_vocab_json
    simp only [hiv, hlv]
  · intro hty iv lv cv hiv hlv hcv
    subst hty
    unfold load_vocab_dir
    rw [if_neg (by decide), if_pos rfl]
    unfold read_vocab_json
    simp only [hiv, hlv, hcv]
  · intro h1 h2 h3
    unfold load_vocab_dir
    rw [if_neg (by simp [h1, h2]), if_neg h3]

/-- Witness directory content: the three vocabulary files present under the
base directory d. -/
def fs0 : String → Option Vocabulary := fun p =>
  if p = "d" ++ "/dataset/" ++ INPUT_VOCAB_FILENAME then some v0
  else if p = "d" ++ "/dataset/" ++ TAG_VOCAB_FILENAME then some vLab
  else if p = "d" ++ "/dataset/" ++ CLASS_VOCAB_FILENAME then some vCls
  else none

/-- Concrete instantiation of C7 at each branch of the task dispatch. -/
theorem load_vocab_dir_shape_witness :
    load_vocab_dir "slu" fs0 "d" =
      Except.ok [("input_vocab", v0), ("label_vocab", vLab), ("class_vocab", vCls)] ∧
    load_vocab_dir "ner" fs0 "d" =
      Except.ok [("input_vocab", v0), ("label_vocab", vLab)] ∧
    load_vocab_dir "foo" fs0 "d" = Except.error (PyError.valueError none) := by
  refine ⟨?_, ?_, ?_⟩
  · exact (load_vocab_dir_shape "slu" fs0 "d").2.1 rfl v0 vLab vCls
      (by decide) (by decide) (by decide)
  · exact (load_vocab_dir_shape "ner" fs0 "d").1 (Or.inl rfl) v0 vLab
      (by decide) (by decide)
  · exact (load_vocab_dir_shape "foo" fs0 "d").2.2 (by decide) (by decide) (by decide)

/-! ## Claim C8 -/

theorem pyRstrip_append_newline (line : String) :
    pyRstrip (line ++ "\n") = pyRstrip line := by
  unfold pyRstrip
  have hdata : (line ++ "\n").data = line.data ++ ['\n'] := rfl
  rw [hdata]
  have hws : Char.isWhitespace '\n' = true := by decide
  simp [List.reverse_append, List.dropWhile_cons, hws]

theorem mem_pyRstrip (line : String) (c : Char)
    (h : c ∈ (pyRstrip line).data) : c ∈ line.data := by
  have h2 : c ∈ (line.data.reverse.dropWhile Char.isWhitespace).reverse := h
  rw [List.mem_reverse] at h2
  have hsub : List.Sublist (line.data.reverse.dropWhile Char.isWhitespace)
      line.data.reverse := List.dropWhile_sublist _
  have h3 := hsub.subset h2
  rwa [List.mem_reverse] at h3

theorem removeNewlines_of_no_newline (s : String) (h : '\n' ∉ s.data) :
    removeNewlines s = s := by
  unfold removeNewlines
  have hfix : s.data.filter (fun c => !(c = '\n')) = s.data := by
    apply List.filter_eq_self.mpr
    intro a ha
    have hne : a ≠ '\n' := fun hc => h (hc ▸ ha)
    simp [hne]
  rw [hfix]

theorem loadLine_eq_pyRstrip (line : String) (h : '\n' ∉ line.data) :
    loadLine line = pyRstrip line := by
  unfold loadLine
  rw [pyRstrip_append_newline]
  apply removeNewlines_of_no_newline
  intro hc
  exact h (mem_pyRstrip line _ hc)

/-- C8 counterexample: on the one-line file whose line is the letter a
followed by one space, `_load_text` also strips the trailing space, so the
entry is not the line with only its trailing newline trimmed. -/
theorem load_text_trailing_space_counterexample :
    load_text ["a "] = ["a"] ∧ load_text ["a "] ≠ (["a "] : List String) := by
  constructor
  · decide
  · decide

/-- C8 (amended): `_load_text` returns exactly one entry per line as counted
up front, each entry being the line with all trailing whitespace stripped
(its trailing newline among it); empty lines are preserved as empty strings
and raise no error. -/
theorem load_text_strips_trailing_whitespace (file : List String)
    (hnl : ∀ line ∈ file, '\n' ∉ line.data) :
    (load_text file).length = file.length ∧
    (∀ i (hi : i < file.length) (hi2 : i < (load_text file).length),
      (load_text file).get ⟨i, hi2⟩ = pyRstrip (file.get ⟨i, hi⟩)) ∧
    loadLine "" = "" := by
  refine ⟨by simp [load_text], ?_, by decide⟩
  intro i hi hi2
  simp only [load_text, List.get_eq_getElem, List.getElem_map]
  exact loadLine_eq_pyRstrip _ (hnl _ (List.getElem_mem hi))

/-- Concrete instantiation of the amended C8 at a two-line file with a
trailing space on the first line and an empty second line. -/
theorem load_text_strips_trailing_whitespace_witness :
    (load_text ["a ", ""]).length = (["a ", ""] : List String).length ∧
    (∀ i (hi : i < (["a ", ""] : List String).length)
      (hi2 : i < (load_text ["a ", ""]).length),
      (load_text ["a ", ""]).get ⟨i, hi2⟩ = pyRstrip (List.get ["a ", ""] ⟨i, hi⟩)) ∧
    loadLine "" = "" :=
  load_text_strips_trailing_whitespace ["a ", ""] (by decide)

/-! ## Claim C9 -/

/-- Witness configuration for create_builder instantiations. -/
def cfg0 : DatasetConfigs :=
  { input := ["a"], label := ["O"], slots := ["O"], intents := ["x"],
    vocab_path := none, vocab_min_freq := none }

/-- C9 (amended): requesting an unsupported file_type when constructing a
builder, or an unsupported task type in create_builder, fails with
NotImplementedError (the code raises NotImplementedError, not
ConfigurationError). -/
theorem unsupported_type_raises_not_implemented (file_type ty : String)
    (input_file label_file class_file : List String)
    (iv lv cv : Option Vocabulary) (cfg : DatasetConfigs)
    (hf : file_type ≠ "text")
    (h1 : ty ≠ "ner") (h2 : ty ≠ "word_segment") (h3 : ty ≠ "slu") :
    ner_init input_file label_file file_type iv lv =
      Except.error (PyError.notImplementedError none) ∧
    slu_init input_file label_file class_file file_type iv lv cv =
      Except.error (PyError.notImplementedError none) ∧
    ws_init input_file file_type iv =
      Except.error (PyError.notImplementedError none) ∧
    create_builder ty cfg = Except.error (PyError.notImplementedError none) := by
  refine ⟨?_, ?_, ?_, ?_⟩
  · unfold ner_init
    rw [if_neg hf]
  · unfold slu_init
    rw [if_neg hf]
  · unfold ws_init
    rw [if_neg hf]
  · unfold create_builder
    rw [if_neg h1, if_neg h2, if_neg h3]

/-- C9 counterexample: the csv file type and an unknown task type fail with
NotImplementedError, which is not a ConfigurationError as the claim says. -/
theorem unsupported_type_counterexample :
    ner_init ["a"] ["O"] "csv" none none =
      Except.error (PyError.notImplementedError none) ∧
    isConfigurationError (ner_init ["a"] ["O"] "csv" none none) = false ∧
    create_builder "foo" cfg0 = Except.error (PyError.notImplementedError none) ∧
    isConfigurationError (create_builder "foo" cfg0) = false := by
  refine ⟨by decide, by decide, by decide, by decide⟩

/-- Concrete instantiation of the amended C9. -/
theorem unsupported_type_raises_not_implemented_witness :
    ner_init ["b"] ["I"] "json" none none =
      Except.error (PyError.notImplementedError none) ∧
    slu_init ["b"] ["I"] ["y"] "json" none none none =
      Except.error (PyError.notImplementedError none) ∧
    ws_init ["b"] "json" none = Except.error (PyError.notImplementedError none) ∧
    create_builder "parse" cfg0 = Except.error (PyError.notImplementedError none) :=
  unsupported_type_raises_not_implemented "json" "parse" ["b"] ["I"] ["y"]
    none none none cfg0 (by decide) (by decide) (by decide) (by decide)

/-! ## Claim C10 -/

/-- Witness SLU builder with input and label vocabularies absent. -/
def bsNoVocab : SLUBuilder :=
  { raw_input := ["a"], raw_label := ["O"], raw_class := ["x"],
    input_vocab := none, label_vocab := none, class_vocab := none }

/-- C10 (amended): the errors the builders raise carry no message at all:
the ValueError from the missing-vocabulary precondition check and the
NotImplementedError from an unsupported file type or task type are raised
bare, so no raised error names the missing precondition. -/
theorem builder_errors_carry_no_message (bn : NERBuilder) (bs : SLUBuilder)
    (file_type ty : String) (input_file label_file : List String)
    (iv lv : Option Vocabulary) (cfg : DatasetConfigs)
    (hn : bn.input_vocab = none ∨ bn.label_vocab = none)
    (hs : bs.input_vocab = none ∨ bs.label_vocab = none)
    (hf : file_type ≠ "text")
    (h1 : ty ≠ "ner") (h2 : ty ≠ "word_segment") (h3 : ty ≠ "slu") :
    (∃ e, ner_build_trainable_dataset bn = Except.error e ∧ PyError.msg e = none) ∧
    (∃ e, slu_build_trainable_dataset bs = Except.error e ∧ PyError.msg e = none) ∧
    (∃ e, ner_init input_file label_file file_type iv lv = Except.error e ∧
      PyError.msg e = none) ∧
    (∃ e, create_builder ty cfg = Except.error e ∧ PyError.msg e = none) := by
  refine ⟨⟨PyError.valueError none, ?_, rfl⟩, ⟨PyError.valueError none, ?_, rfl⟩,
    ⟨PyError.notImplementedError none, ?_, rfl⟩,
    ⟨PyError.notImplementedError none, ?_, rfl⟩⟩
  · unfold ner_build_trainable_dataset
    rw [if_pos hn]
  · unfold slu_build_trainable_dataset
    rw [if_pos hs]
  · unfold ner_init
    rw [if_neg hf]
  · unfold create_builder
    rw [if_neg h1, if_neg h2, if_neg h3]

/-- C10 counterexample: the ValueError raised by build_trainable_dataset on
a vocabulary-less builder carries no message, so it does not name the
missing precondition. -/
theorem builder_error_message_counterexample :
    ner_build_trainable_dataset bnNone = Except.error (PyError.valueError none) ∧
    PyError.msg (PyError.valueError none) = none := by
  refine ⟨by decide, rfl⟩

/-- Concrete instantiation of the amended C10. -/
theorem builder_errors_carry_no_message_witness :
    (∃ e, ner_build_trainable_dataset bnNone = Except.error e ∧ PyError.msg e = none) ∧
    (∃ e, slu_build_trainable_dataset bsNoVocab = Except.error e ∧ PyError.msg e = none) ∧
    (∃ e, ner_init ["b"] ["I"] "csv" none none = Except.error e ∧ PyError.msg e = none) ∧
    (∃ e, create_builder "tag" cfg0 = Except.error e ∧ PyError.msg e = none) :=
  builder_errors_carry_no_message bnNone bsNoVocab "csv" "tag" ["b"] ["I"] none none
    cfg0 (Or.inl rfl) (Or.inl rfl) (by decide) (by decide) (by decide) (by decide)
